import Mathlib

/-!
Verification of the abc-mini core against its specification.

The development shallowly embeds the C++ sources:
- the dynamic array primitive `Vec` (vec_alloc, vec_grow, vec_push,
  vec_entry_at, vec_remove) from BlifReader.cpp;
- the diagnostics channel (AbcMiniInstallFaultHandler,
  AbcMiniResetFaultHandlers, emit_fault) from Diagnostics.cpp;
- the post-parse portion of AbcMiniReadBlif (structural check loop, EXDC
  extraction, top-level resolution, singleton fast path, cycle check, LTL
  drain) from BlifReader.cpp.

Machine pointers are modelled as natural numbers (0 is the null pointer);
the C `int` size and capacity fields are modelled as `Nat`, since every
operation of the embedded API keeps them non-negative.  The backing
storage of a `Vec` is modelled as the list of its live entries together
with the numeric address of slot 0, so that the address arithmetic
performed by `vec_entry_at` (which returns `array + index`, a slot
address, rather than `array[index]`) is expressible.
-/

namespace AbcMini

/-- Model of `struct Vec` (BlifReader.cpp lines 20-24).  `base` is the
numeric address of slot 0 of the backing array (slot-granular), `contents`
the list of the `size` live entries (each an opaque pointer modelled as a
`Nat`).  `capacity` is carried explicitly; the size field of the struct is
the derived `Vec.size`.  Reallocation is modelled as keeping the same
base address, which no embedded claim depends on. -/
structure Vec where
  base : Nat
  capacity : Nat
  contents : List Nat
  deriving Repr, DecidableEq

/-- The `size` field of `struct Vec`: the number of live entries. -/
def Vec.size (v : Vec) : Nat := v.contents.length

/-- `vec_alloc` (BlifReader.cpp lines 28-39): a requested capacity
strictly between 0 and 8 is rounded up to 8; the fresh array is empty.
`base` stands for the address returned by malloc. -/
def vec_alloc (base : Nat) (capacity : Nat) : Vec :=
  let capacity := if 0 < capacity ∧ capacity < 8 then 8 else capacity
  { base := base, capacity := capacity, contents := [] }

/-- `vec_grow` (BlifReader.cpp lines 41-48): no-op when the capacity is
already sufficient, otherwise the capacity becomes exactly
`min_capacity`; realloc preserves the entries. -/
def vec_grow (v : Vec) (min_capacity : Nat) : Vec :=
  if min_capacity ≤ v.capacity then v
  else { v with capacity := min_capacity }

/-- `vec_push` (BlifReader.cpp lines 50-61): on a full array, grow to 16
when the capacity is below 16 and otherwise to twice the capacity; then
write the entry at index `size` and increment `size`. -/
def vec_push (v : Vec) (entry : Nat) : Vec :=
  let v :=
    if v.size = v.capacity then
      if v.capacity < 16 then vec_grow v 16 else vec_grow v (v.capacity * 2)
    else v
  { v with contents := v.contents ++ [entry] }

/-- Sequence of `vec_push` calls, first pushed entry first. -/
def vec_push_all (v : Vec) (entries : List Nat) : Vec :=
  entries.foldl vec_push v

/-- `vec_entry_at` (BlifReader.cpp lines 63-66).  The bounds assertion
`index < vec.size` is modelled by the `.error` branch.  The returned
value is the translation of `reinterpret_cast<T>(vec.array + index)`:
the numeric address of slot `index`, NOT the entry stored in it. -/
def vec_entry_at (v : Vec) (index : Nat) : Except Unit Nat :=
  if index < v.size then .ok (v.base + index) else .error ()

/-- Index of the last occurrence of `x` in `l`, the slot the backward
scan of `vec_remove` (BlifReader.cpp lines 69-74) breaks at. -/
def lastIdxOf : List Nat → Nat → Option Nat
  | [], _ => none
  | a :: as, x =>
    match lastIdxOf as x with
    | some k => some (k + 1)
    | none => if a = x then some 0 else none

/-- `vec_remove` (BlifReader.cpp lines 68-80).  The backward scan uses an
unsigned index, so `assert(i >= 0)` can never fail; when no entry
matches, the index wraps below zero and the scan reads out of the array
bounds — modelled as `none` (undefined behaviour), not as an assertion
failure.  When a match is found at the highest matching index `k`, the
shift loop erases slot `k` and the size is decremented. -/
def vec_remove (v : Vec) (entry : Nat) : Option Vec :=
  match lastIdxOf v.contents entry with
  | none => none
  | some k => some { v with contents := v.contents.eraseIdx k }

/-- The condition of the `assert(i >= 0)` on the unsigned scan index in
`vec_remove` (BlifReader.cpp line 75), as written in the source. -/
def vec_remove_assert_condition (i : Nat) : Prop := i ≥ 0

/-- Pure helper used by the import pipeline below: the list left by
`vec_remove` semantics on a plain id list (total-ized: identity when the
entry is absent, which the pipeline never relies on). -/
def removeLastOcc (l : List Nat) (x : Nat) : List Nat :=
  match lastIdxOf l x with
  | none => l
  | some k => l.eraseIdx k

end AbcMini

namespace AbcMini

/-! Diagnostics channel (Diagnostics.cpp, Log.h).  Fault handlers are
function pointers, modelled as numeric ids; `default_fault_handler` is
the address of the default handler installed at process start. -/

/-- The default fault handler (Diagnostics.cpp lines 23-26), as an
opaque function-pointer id. -/
def default_fault_handler : Nat := 0

/-- `AbcMiniInstallFaultHandler` (Diagnostics.cpp lines 33-40): when the
list is exactly one entry holding the default handler, slot 0 is
overwritten with the new handler; otherwise the handler is appended. -/
def AbcMiniInstallFaultHandler (handlers : List Nat) (handler : Nat) : List Nat :=
  if handlers.length = 1 ∧ handlers.headD 0 = default_fault_handler then
    handlers.set 0 handler
  else
    handlers ++ [handler]

/-- `AbcMiniResetFaultHandlers` (Diagnostics.cpp lines 42-46): clear the
list, then push the default handler. -/
def AbcMiniResetFaultHandlers (_handlers : List Nat) : List Nat :=
  [default_fault_handler]

/-- `detail::format_message` (Log.h lines 74-78) for a zero-argument
format call: std::vformat of a format string with no placeholder
arguments is the string itself. -/
def format_message (format : String) : String := format

/-- The invocation trace of `emit_fault` (Log.h lines 81-99) without the
debug-info build flag: every registered handler is called in list order,
each with the message formatted from the same format string and
arguments. -/
def emit_fault_trace (format : String) (handlers : List Nat) : List (Nat × String) :=
  handlers.map (fun handler => (handler, format_message format))

end AbcMini

namespace AbcMini

/-! Data model of the post-parse pipeline (BlifReader.cpp lines 111-377).

A scoping note on `vec_entry_at`: the pipeline source reads its vecs
through `vec_entry_at`, whose body returns the slot ADDRESS rather than
the stored entry (the divergence recorded above for the vec component
and below for the line 346 call site).  The pipeline embedding instead
reads entries by CONTENT — the dereference semantics every call site
assumes and the reference ABC code (kept disabled in
src/abc-mini/lib/BlifReader.cpp) implements.  The embedding is
therefore used only to establish control-flow facts and negative
verdicts about the source — which branches run, which faults are
emitted, the missing return after a failed structural check, the ERROR
paths, the dead LTL drain, the singleton fast path bypassing the cycle
check — never to certify that a release build of the program computes
the resulting values.

Networks are mutated by the pipeline, so they live in a store (a list
indexed by network id); a network id plays the role of an
`AbcNetworkImpl` pointer.  The fields of `struct AbcNetworkImpl` never
read or written by the embedded code (the many `_unused` slots, the
counts, the name manager, ...) are omitted; the `_unused_spec` and
`_unused_ltl_properties` fields ARE touched by `AbcMiniReadBlif` and are
kept under the source names.  There is exactly one `AbcDesignImpl` per
import, so the `design` back-reference of a network is `Option Unit`
(`some ()` while the network is referenced to the design, `none` once
detached).  `sub_models` is not a field of the C struct: it is modelled
from the spec (section 4.4 and the glossary), recording the names of the
models this network instantiates as subcircuits, and is read only by the
spec-modelled `Abc_DesFindTopLevelModels` and
`Abc_NtkIsAcyclicHierarchy` below. -/
structure AbcNetworkImpl where
  name : String
  _unused_spec : Option String
  design : Option Unit
  exdc_network : Option Nat
  _unused_ltl_properties : List Nat
  sub_models : List String
  deriving Repr, DecidableEq

instance : Inhabited AbcNetworkImpl :=
  ⟨{ name := "", _unused_spec := none, design := none, exdc_network := none,
     _unused_ltl_properties := [], sub_models := [] }⟩

/-- Dereference a network id in the store. -/
def getN (store : List AbcNetworkImpl) (i : Nat) : AbcNetworkImpl :=
  store.getD i default

/-- Overwrite the network behind an id in the store. -/
def setN (store : List AbcNetworkImpl) (i : Nat) (n : AbcNetworkImpl) :
    List AbcNetworkImpl :=
  store.set i n

/-- Model of `struct AbcDesignImpl` (BlifReader.cpp lines 232-240):
`modules` and `top_level_modules` hold network ids; the unused fields are
omitted. -/
structure AbcDesignImpl where
  name : String
  modules : List Nat
  top_level_modules : List Nat
  deriving Repr, DecidableEq

/-- `AbcResult` (Types.h): the only two outcomes of the entry point. -/
inductive AbcResult where
  | OK
  | ERROR
  deriving Repr, DecidableEq

/-- Everything observable at the end of `AbcMiniReadBlif`: the returned
result code, the value written to `*OutNetwork` (`none` is the null
handle), the messages emitted through the diagnostics channel in order,
the final network store and design, and whether `Abc_DesFree` was called
on the design. -/
structure ReadResult where
  result : AbcResult
  outNetwork : Option Nat
  faults : List String
  store : List AbcNetworkImpl
  design : AbcDesignImpl
  designFreed : Bool
  deriving Repr, DecidableEq

/-- The structural validation loop of `AbcMiniReadBlif` (BlifReader.cpp
lines 323-329): for every network of `design.modules` failing
`Abc_NtkCheckRead` (passed here as the oracle `checkRead`, since that
function lives in ABC, outside this repository), a fault naming the
network is emitted and `Abc_DesFree(design, nullptr)` is called.  The
loop body contains no return or break: the fold records the emitted
faults and whether the design was freed, and the pipeline continues
regardless. -/
def checkStage (checkRead : AbcNetworkImpl → Bool) (store : List AbcNetworkImpl)
    (modules : List Nat) : List String × Bool :=
  modules.foldl
    (fun acc i =>
      if checkRead (getN store i) then acc
      else (acc.1 ++ ["network check has failed for " ++ (getN store i).name], true))
    ([], false)

/-- The EXDC extraction loop of `AbcMiniReadBlif` (BlifReader.cpp lines
330-344), one constructor per iteration of the `for` loop over index
`i`, with `network` the running root candidate.  On a module named
"EXDC": the source asserts that the candidate has no EXDC companion yet
(the `.error` branch), attaches the module as `exdc_network` of the
candidate, removes it from the module list (`vec_remove`, highest-index
match) and clears its design back-reference; the `--i` of the source
followed by the `++i` of the loop leaves `i` unchanged.  On any other
module the candidate becomes that module and `i` advances.  Each
iteration strictly decreases `mods.length - i`, so the loop performs at
most `mods.length` iterations; `fuel` is an upper bound on the remaining
iterations and the fuel-exhausted branch is unreachable from
`exdcStage`. -/
def exdcLoop : Nat → List AbcNetworkImpl → List Nat → Nat → Nat →
    Except String (List AbcNetworkImpl × List Nat)
  | 0, _, _, _, _ => .error "exdc loop: fuel exhausted"
  | fuel + 1, store, mods, network, i =>
    if i < mods.length then
      let other := mods.getD i 0
      if (getN store other).name = "EXDC" then
        if (getN store network).exdc_network ≠ none then
          .error "assertion failed: network->exdc_network == nullptr"
        else
          let store := setN store network
            { getN store network with exdc_network := some other }
          let mods := removeLastOcc mods other
          let store := setN store other { getN store other with design := none }
          exdcLoop fuel store mods network i
      else
        exdcLoop fuel store mods other (i + 1)
    else
      .ok (store, mods)

/-- The EXDC extraction stage (BlifReader.cpp lines 330-344), entered
only when the design has more than one module: the root candidate starts
as `modules[0]` and the scan starts at index 1. -/
def exdcStage (store : List AbcNetworkImpl) (mods : List Nat) :
    Except String (List AbcNetworkImpl × List Nat) :=
  exdcLoop (mods.length + 1) store mods (mods.headD 0) 1

/-- Modelled from the spec: `Abc_DesFindTopLevelModels` is defined in
ABC (base/abc/abcLib.c), outside this repository.  Section 4.3 of the
spec: top-level modules are the networks never instantiated as a
subcircuit by any other network of the design, in module-list order.
Instantiation is resolved by model name through `sub_models`. -/
def Abc_DesFindTopLevelModels (store : List AbcNetworkImpl) (mods : List Nat) :
    List Nat :=
  mods.filter
    (fun i => !(mods.any
      (fun j => (j != i) && (getN store j).sub_models.contains (getN store i).name)))

/-- Subcircuit successors of a network inside the design: the design
modules whose name this network instantiates (spec section 4.4: edges of
the hierarchy graph). -/
def subcircuitSuccs (store : List AbcNetworkImpl) (mods : List Nat) (i : Nat) :
    List Nat :=
  mods.filter (fun j => (getN store i).sub_models.contains (getN store j).name)

/-- One round of reachability closure over the subcircuit graph. -/
def reachStepFn (store : List AbcNetworkImpl) (mods : List Nat) (s : List Nat) :
    List Nat :=
  (s ++ (s.map (subcircuitSuccs store mods)).flatten).dedup

/-- Iterated reachability closure. -/
def reachIter (store : List AbcNetworkImpl) (mods : List Nat) :
    Nat → List Nat → List Nat
  | 0, s => s
  | n + 1, s => reachIter store mods n (reachStepFn store mods s)

/-- Nodes reachable (in zero or more steps) from a start set; all nodes
lie in `mods`, so `mods.length` closure rounds reach the fixpoint. -/
def reachableFrom (store : List AbcNetworkImpl) (mods : List Nat)
    (start : List Nat) : List Nat :=
  reachIter store mods (mods.length + 1) start

/-- Modelled from the spec: `Abc_NtkIsAcyclicHierarchy` is defined in
ABC (base/abc/abcCheck.c), outside this repository.  Section 4.4 of the
spec: directed-graph cycle detection from the root over the
subcircuit-instantiation edges; the hierarchy is acyclic when no node
reachable from the root lies on a cycle (reaches itself by a path of
positive length). -/
def Abc_NtkIsAcyclicHierarchy (store : List AbcNetworkImpl) (mods : List Nat)
    (root : Nat) : Bool :=
  (reachableFrom store mods [root]).all
    (fun i => !((reachableFrom store mods (subcircuitSuccs store mods i)).contains i))

/-- The success epilogue of `AbcMiniReadBlif` (BlifReader.cpp lines
365-376).  Line 365: stamp `_unused_spec` with the source filename
"input.blif" (line 298) when still unset.  Lines 368-374: the source
OVERWRITES the global `vGlobalLtlArray` with a freshly allocated empty
array (`vec_alloc(100)`) and only then loops over that array pushing its
entries onto the root network property list — the fresh array is empty,
so the loop appends the empty `(vec_alloc 0 100).contents`, and whatever
the global list held before this point never reaches the network.  Line
375: `*OutNetwork` receives the root network. -/
def finishStage (store : List AbcNetworkImpl) (root : Nat) (faults : List String)
    (design : AbcDesignImpl) (designFreed : Bool) : ReadResult :=
  let store :=
    if (getN store root)._unused_spec = none then
      setN store root { getN store root with _unused_spec := some "input.blif" }
    else store
  let store := setN store root
    { getN store root with
      _unused_ltl_properties :=
        (getN store root)._unused_ltl_properties ++ (vec_alloc 0 100).contents }
  { result := .OK, outNetwork := some root, faults := faults, store := store,
    design := design, designFreed := designFreed }

/-- The post-parse portion of `AbcMiniReadBlif` (BlifReader.cpp lines
323-376), entered with the store and design produced by the parse
stages.  `checkRead` stands for the external `Abc_NtkCheckRead`;
`pendingLtl` is the contents of the global `vGlobalLtlArray` on entry —
the source reassigns that global at line 368 before ever reading it, so
the parameter is dead, faithfully to the source.  Assertion failures
(`vec_entry_at` on an empty `top_level_modules`, a second adjacent EXDC,
the line 354 assert) are the `.error` outcomes. -/
def readBlifPostParse (checkRead : AbcNetworkImpl → Bool)
    (store : List AbcNetworkImpl) (design : AbcDesignImpl)
    (_pendingLtl : List Nat) : Except String ReadResult :=
  -- lines 323-329: structural validation (no early return in the source)
  let checked := checkStage checkRead store design.modules
  let faults := checked.1
  let designFreed := checked.2
  -- lines 330-344: EXDC extraction, only when more than one module
  match (if design.modules.length > 1 then exdcStage store design.modules
         else .ok (store, design.modules)) with
  | .error e => .error e
  | .ok (store, mods) =>
    -- lines 345-351: top-level resolution and the extra-roots warning
    match Abc_DesFindTopLevelModels store mods with
    | [] => .error "assertion failed: 0 < top_level_modules->size"
    | root :: rest =>
      let tops := root :: rest
      let faults := faults ++
        (if tops.length > 1 then
          ["warning: the design has " ++ toString tops.length ++
           " root-level modules -- the first one (" ++ (getN store root).name ++
           ") will be used"]
         else [])
      -- line 352: network->design = design
      let store := setN store root { getN store root with design := some () }
      let design := { design with modules := mods, top_level_modules := tops }
      -- line 354: assert(design->modules->size > 0)
      if mods.length = 0 then .error "assertion failed: design->modules->size > 0"
      else if mods.length = 1 then
        -- lines 355-358: singleton fast path; Abc_DesFree keeps the root,
        -- the root is detached and its spec stamped
        let store := setN store root
          { getN store root with design := none, _unused_spec := some "input.blif" }
        .ok (finishStage store root faults design true)
      else
        -- lines 359-364: cycle check on the chosen root
        if Abc_NtkIsAcyclicHierarchy store mods root then
          .ok (finishStage store root faults design designFreed)
        else
          .ok { result := .ERROR, outNetwork := none,
                faults := faults ++
                  ["network (" ++ (getN store root).name ++ ") hierarchy is not acyclic"],
                store := store, design := design, designFreed := designFreed }

/-- `AbcMiniReadBlif` from the first statement after the parse stages
(BlifReader.cpp lines 317-322) onwards: emit the buffered parse error
when non-empty, return ERROR with the out handle still null when the
parse produced no design, otherwise run the post-parse pipeline. -/
def readBlifAfterParse (checkRead : AbcNetworkImpl → Bool)
    (store : List AbcNetworkImpl) (errorBuf : String)
    (designOpt : Option AbcDesignImpl) (pendingLtl : List Nat) :
    Except String ReadResult :=
  let faults0 := if errorBuf ≠ "" then [errorBuf] else []
  match designOpt with
  | none =>
    .ok { result := .ERROR, outNetwork := none, faults := faults0, store := store,
          design := { name := "", modules := [], top_level_modules := [] },
          designFreed := false }
  | some design =>
    (readBlifPostParse checkRead store design pendingLtl).map
      (fun r => { r with faults := faults0 ++ r.faults })

/-- Outcome of the entry prologue of `AbcMiniReadBlif` (BlifReader.cpp
lines 297-301) with assertions enabled. -/
inductive PrologueOutcome where
  | assertTextFail
  | assertOutFail
  | nullDeref
  | proceed
  deriving Repr, DecidableEq

/-- The entry prologue of `AbcMiniReadBlif` (BlifReader.cpp lines
297-301), on the numeric values of the two pointer arguments (0 is the
null pointer).  Line 299 asserts that `Text` is non-null.  Line 300
asserts `OutNetwork == nullptr`: the POINTER itself must be null, so the
assert fails for every non-null out parameter; when it passes, line 301
executes `*OutNetwork = nullptr`, a write through that same null
pointer.  No execution proceeds past line 301. -/
def AbcMiniReadBlif_prologue (textAddr : Nat) (outAddr : Nat) : PrologueOutcome :=
  if textAddr = 0 then .assertTextFail
  else if outAddr ≠ 0 then .assertOutFail
  else .nullDeref

/-- A freshly parsed network as the parse stages produce it: named,
attached to the design, with no spec, no EXDC companion and no
properties; `sub` lists the models it instantiates as subcircuits. -/
def mkNet (name : String) (sub : List String) : AbcNetworkImpl :=
  { name := name, _unused_spec := none, design := some (), exdc_network := none,
    _unused_ltl_properties := [], sub_models := sub }

end AbcMini

namespace AbcMini

/-! Helper lemmas. -/

theorem vec_grow_contents (v : Vec) (m : Nat) : (vec_grow v m).contents = v.contents := by
  unfold vec_grow; split <;> rfl

theorem vec_push_contents (v : Vec) (e : Nat) :
    (vec_push v e).contents = v.contents ++ [e] := by
  unfold vec_push
  split <;> [skip; rfl]
  split <;> simp [vec_grow_contents]

theorem vec_push_all_contents (l : List Nat) :
    ∀ v : Vec, (vec_push_all v l).contents = v.contents ++ l := by
  induction l with
  | nil => intro v; simp [vec_push_all]
  | cons a as ih =>
    intro v
    simp [vec_push_all] at ih ⊢
    rw [ih, vec_push_contents]
    simp

theorem lastIdxOf_eq_none (l : List Nat) (x : Nat) (h : x ∉ l) :
    lastIdxOf l x = none := by
  induction l with
  | nil => rfl
  | cons a as ih =>
    simp at h
    simp [lastIdxOf, ih h.2, h.1]
    intro hc
    exact absurd hc.symm h.1

theorem lastIdxOf_last_occ (x : Nat) (l2 : List Nat) (h2 : x ∉ l2) :
    ∀ l1 : List Nat, lastIdxOf (l1 ++ x :: l2) x = some l1.length := by
  intro l1
  induction l1 with
  | nil => simp [lastIdxOf, lastIdxOf_eq_none l2 x h2]
  | cons a as ih => simp [lastIdxOf, ih]

theorem eraseIdx_middle (x : Nat) (l2 : List Nat) :
    ∀ l1 : List Nat, (l1 ++ x :: l2).eraseIdx l1.length = l1 ++ l2 := by
  intro l1
  induction l1 with
  | nil => rfl
  | cons a as ih => simp [List.eraseIdx, ih]

theorem checkStage_all_pass (checkRead : AbcNetworkImpl → Bool)
    (store : List AbcNetworkImpl) (mods : List Nat)
    (h : ∀ i ∈ mods, checkRead (getN store i) = true) :
    checkStage checkRead store mods = ([], false) := by
  have key : ∀ acc : List String × Bool,
      mods.foldl (fun acc i =>
        if checkRead (getN store i) then acc
        else (acc.1 ++ ["network check has failed for " ++ (getN store i).name], true))
        acc = acc := by
    induction mods with
    | nil => intro acc; rfl
    | cons a as ih =>
      intro acc
      have ha : checkRead (getN store a) = true := h a (by simp)
      simp only [List.foldl_cons, ha, if_true]
      exact ih (fun i hi => h i (by simp [hi])) acc
  exact key ([], false)

theorem install_cond_iff (handlers : List Nat) :
    (handlers.length = 1 ∧ handlers.headD 0 = default_fault_handler) ↔
      handlers = [default_fault_handler] := by
  constructor
  · rintro ⟨h1, h2⟩
    obtain ⟨a, rfl⟩ := List.length_eq_one.mp h1
    simp at h2
    simp [h2]
  · rintro rfl
    exact ⟨rfl, rfl⟩

theorem readBlifPostParse_result_ok_iff (checkRead : AbcNetworkImpl → Bool)
    (store : List AbcNetworkImpl) (design : AbcDesignImpl) (pendingLtl : List Nat)
    (r : ReadResult) (h : readBlifPostParse checkRead store design pendingLtl = .ok r) :
    r.result = .OK ↔ r.outNetwork ≠ none := by
  unfold readBlifPostParse at h
  split at h
  · exact absurd h (by simp)
  · split at h
    · exact absurd h (by simp)
    · split at h
      · exact absurd h (by simp)
      · split at h
        · cases h
          simp [finishStage]
        · dsimp only at h
          split at h
          · cases h
            simp [finishStage]
          · cases h
            simp

end AbcMini

namespace AbcMini

/-- C2: after any sequence of N pushes the size is N and the i-th slot
holds the i-th pushed entry, and `vec_entry_at` fails its bounds
assertion for every index at or past the size; BUT the value
`vec_entry_at` returns for an in-range index is the address of slot i
(`vec.array + index`), not the entry stored there: pushing the entry 7
into an array whose storage sits at address 100 and reading index 0 back
yields 100, not 7.  The last conjunct is the divergence from the claim,
which the callers of `vec_entry_at` (and the `Vec_PtrEntry` reference
code quoted in disabled form in BlifReader.cpp) expect to be the stored
entry. -/
theorem vec_push_entry_at_spec :
    (∀ (b c : Nat) (l : List Nat),
      (vec_push_all (vec_alloc b c) l).size = l.length ∧
      (vec_push_all (vec_alloc b c) l).contents = l) ∧
    (∀ (v : Vec) (i : Nat), v.size ≤ i → vec_entry_at v i = .error ()) ∧
    ((vec_push_all (vec_alloc 100 8) [7]).contents = [7] ∧
      vec_entry_at (vec_push_all (vec_alloc 100 8) [7]) 0 = .ok 100 ∧ (100 : Nat) ≠ 7) := by
  refine ⟨fun b c l => ?_, fun v i h => ?_, by decide, rfl, by decide⟩
  · have hc : (vec_push_all (vec_alloc b c) l).contents = l := by
      rw [vec_push_all_contents]
      simp [vec_alloc]
    exact ⟨by simp [Vec.size, hc], hc⟩
  · unfold vec_entry_at
    rw [if_neg (by omega)]

/-- C2 witness: the bounds-assertion conjunct applied at a concrete
out-of-range index. -/
theorem vec_push_entry_at_spec_witness :
    vec_entry_at (vec_alloc 5 3) 1 = .error () :=
  vec_push_entry_at_spec.2.1 (vec_alloc 5 3) 1 (by decide)

/-- C3: removing an entry present exactly once erases exactly its slot
(the highest-index match of the backward scan), preserving the relative
order of all other entries and decrementing the size by one; BUT for an
absent entry no NotFound assertion fires: the scan index is unsigned, so
the `assert(i >= 0)` of the source holds for every index value
whatsoever (third conjunct), and the backward scan instead wraps below
zero and reads out of the array bounds (modelled as the `none` outcome,
second and fourth conjuncts) — the claimed NotFound assertion violation
does not exist in the code. -/
theorem vec_remove_spec :
    (∀ (v : Vec) (x : Nat) (l1 l2 : List Nat),
      v.contents = l1 ++ x :: l2 → x ∉ l1 → x ∉ l2 →
      vec_remove v x = some { v with contents := l1 ++ l2 } ∧
        (l1 ++ l2).length + 1 = v.size) ∧
    (∀ (v : Vec) (x : Nat), x ∉ v.contents → vec_remove v x = none) ∧
    (∀ i : Nat, vec_remove_assert_condition i) ∧
    vec_remove { base := 0, capacity := 8, contents := [10] } 11 = none := by
  refine ⟨fun v x l1 l2 hv h1 h2 => ?_, fun v x h => ?_, fun i => Nat.zero_le i, by decide⟩
  · constructor
    · unfold vec_remove
      rw [hv, lastIdxOf_last_occ x l2 h2 l1]
      dsimp only
      rw [eraseIdx_middle]
    · simp [Vec.size, hv]
      omega
  · unfold vec_remove
    rw [lastIdxOf_eq_none v.contents x h]

/-- C3 witness: the present-exactly-once conjunct applied to the array
holding 3, 5, 9 with the middle entry removed. -/
theorem vec_remove_spec_witness :
    vec_remove { base := 0, capacity := 8, contents := [3, 5, 9] } 5
        = some { base := 0, capacity := 8, contents := [3, 9] } ∧
      ([3, 9] : List Nat).length + 1
        = Vec.size { base := 0, capacity := 8, contents := [3, 5, 9] } :=
  vec_remove_spec.1 { base := 0, capacity := 8, contents := [3, 5, 9] } 5 [3] [9]
    rfl (by decide) (by decide)

/-- C8: growth policy of the dynamic array.  A requested allocation
capacity between 1 and 7 is rounded up to 8; a push on a full array
grows the capacity to 16 when it is below 16 and otherwise doubles it; a
direct `vec_grow` call is a no-op when the capacity is already
sufficient and otherwise makes `min_capacity` the capacity exactly,
preserving the entries. -/
theorem vec_growth_policy :
    (∀ b c : Nat, 1 ≤ c → c ≤ 7 → (vec_alloc b c).capacity = 8) ∧
    (∀ (v : Vec) (e : Nat), v.size = v.capacity →
      (vec_push v e).capacity = if v.capacity < 16 then 16 else v.capacity * 2) ∧
    (∀ (v : Vec) (m : Nat), m ≤ v.capacity → vec_grow v m = v) ∧
    (∀ (v : Vec) (m : Nat), v.capacity < m →
      (vec_grow v m).capacity = m ∧ (vec_grow v m).contents = v.contents) := by
  refine ⟨fun b c h1 h7 => ?_, fun v e hfull => ?_, fun v m h => ?_, fun v m h => ?_⟩
  · unfold vec_alloc
    rw [if_pos ⟨by omega, by omega⟩]
  · unfold vec_push vec_grow
    rw [if_pos hfull]
    split
    · rw [if_neg (by omega)]
    · rw [if_neg (by omega)]
  · unfold vec_grow
    rw [if_pos h]
  · unfold vec_grow
    rw [if_neg (by omega)]
    exact ⟨rfl, rfl⟩

/-- C8 witness: the four conjuncts applied at concrete capacities. -/
theorem vec_growth_policy_witness :
    (vec_alloc 0 5).capacity = 8 ∧
    (vec_push { base := 9, capacity := 4, contents := [1, 2, 3, 4] } 7).capacity
      = (if (4 : Nat) < 16 then 16 else 4 * 2) ∧
    vec_grow { base := 9, capacity := 4, contents := [1] } 3
      = { base := 9, capacity := 4, contents := [1] } ∧
    ((vec_grow { base := 9, capacity := 4, contents := [1] } 10).capacity = 10 ∧
      (vec_grow { base := 9, capacity := 4, contents := [1] } 10).contents = [1]) :=
  ⟨vec_growth_policy.1 0 5 (by decide) (by decide),
   vec_growth_policy.2.1 { base := 9, capacity := 4, contents := [1, 2, 3, 4] } 7 rfl,
   vec_growth_policy.2.2.1 { base := 9, capacity := 4, contents := [1] } 3 (by decide),
   vec_growth_policy.2.2.2 { base := 9, capacity := 4, contents := [1] } 10 (by decide)⟩

/-- C9: when the handler list is still exactly the default one,
installing replaces slot 0; once it is anything else, installing
appends; an emitted fault invokes every registered handler in list
order, each with the identical formatted message (so after installing h1
then h2 from the initial state, emission calls h1 then h2 with the same
message); and after a reset only the default handler fires. -/
theorem fault_handler_fanout :
    (∀ h : Nat, AbcMiniInstallFaultHandler [default_fault_handler] h = [h]) ∧
    (∀ (hs : List Nat) (h : Nat), hs ≠ [default_fault_handler] →
      AbcMiniInstallFaultHandler hs h = hs ++ [h]) ∧
    (∀ (fmt : String) (hs : List Nat),
      emit_fault_trace fmt hs = hs.map (fun h => (h, format_message fmt))) ∧
    (∀ (h1 h2 : Nat) (fmt : String), h1 ≠ default_fault_handler →
      emit_fault_trace fmt
          (AbcMiniInstallFaultHandler (AbcMiniInstallFaultHandler [default_fault_handler] h1) h2)
        = [(h1, format_message fmt), (h2, format_message fmt)]) ∧
    (∀ (hs : List Nat) (fmt : String),
      emit_fault_trace fmt (AbcMiniResetFaultHandlers hs)
        = [(default_fault_handler, format_message fmt)]) := by
  have hrepl : ∀ h : Nat, AbcMiniInstallFaultHandler [default_fault_handler] h = [h] := by
    intro h
    unfold AbcMiniInstallFaultHandler
    rw [if_pos (install_cond_iff _ |>.mpr rfl)]
    rfl
  have happ : ∀ (hs : List Nat) (h : Nat), hs ≠ [default_fault_handler] →
      AbcMiniInstallFaultHandler hs h = hs ++ [h] := by
    intro hs h hne
    unfold AbcMiniInstallFaultHandler
    rw [if_neg (fun hc => hne ((install_cond_iff hs).mp hc))]
  refine ⟨hrepl, happ, fun fmt hs => rfl, fun h1 h2 fmt hne => ?_, fun hs fmt => rfl⟩
  rw [hrepl h1, happ [h1] h2 (by simpa using hne)]
  rfl

/-- C9 witness: install handler 5 then handler 7 starting from the
default list, emit, then reset. -/
theorem fault_handler_fanout_witness :
    AbcMiniInstallFaultHandler [5] 7 = [5, 7] ∧
    emit_fault_trace "x" (AbcMiniInstallFaultHandler (AbcMiniInstallFaultHandler
        [default_fault_handler] 5) 7)
      = [(5, format_message "x"), (7, format_message "x")] :=
  ⟨fault_handler_fanout.2.1 [5] 7 (by decide),
   fault_handler_fanout.2.2.2.1 5 7 "x" (by decide)⟩

/-- C1: a failing per-network structural check does NOT abort the
import.  On a one-module design whose network fails `Abc_NtkCheckRead`,
the source emits the fault naming the network and calls
`Abc_DesFree(design, nullptr)`, but the loop body (BlifReader.cpp lines
323-329) contains no return: every later stage still runs on the freed
design and the pipeline ends with OK and a populated root handle instead
of the ERROR the claim requires. -/
theorem readBlif_failed_check_not_aborted :
    readBlifPostParse (fun _ => false) [mkNet "M" []]
        { name := "", modules := [0], top_level_modules := [] } []
      = .ok { result := .OK, outNetwork := some 0,
              faults := ["network check has failed for M"],
              store := [{ mkNet "M" [] with
                          design := none, _unused_spec := some "input.blif" }],
              design := { name := "", modules := [0], top_level_modules := [0] },
              designFreed := true } := rfl

/-- C4: the entry prologue of `AbcMiniReadBlif` with assertions enabled
can never proceed past line 301: the assert at line 300 demands that the
`OutNetwork` POINTER itself be null, so the intended call shape (a
non-null pointer to a null handle, here addresses 1 and 8) fails that
assertion, a null `Text` fails the line 299 assertion, and the only
remaining shape (a null out pointer) makes line 301 write through a null
pointer.  Independently, in the pipeline after the prologue the out
handle is populated exactly when the result is OK and left null on
ERROR. -/
theorem readBlif_entry_contract :
    (∀ t o : Nat, AbcMiniReadBlif_prologue t o ≠ .proceed) ∧
    AbcMiniReadBlif_prologue 1 8 = .assertOutFail ∧
    AbcMiniReadBlif_prologue 0 8 = .assertTextFail ∧
    AbcMiniReadBlif_prologue 1 0 = .nullDeref ∧
    (∀ (checkRead : AbcNetworkImpl → Bool) (store : List AbcNetworkImpl)
        (errorBuf : String) (designOpt : Option AbcDesignImpl)
        (pendingLtl : List Nat) (r : ReadResult),
      readBlifAfterParse checkRead store errorBuf designOpt pendingLtl = .ok r →
      (r.result = .OK ↔ r.outNetwork ≠ none)) := by
  refine ⟨fun t o => ?_, rfl, rfl, rfl, fun cr st eb dO p r h => ?_⟩
  · unfold AbcMiniReadBlif_prologue
    split_ifs <;> simp
  · unfold readBlifAfterParse at h
    cases dO with
    | none =>
      dsimp only at h
      cases h
      simp
    | some design =>
      dsimp only at h
      cases hp : readBlifPostParse cr st design p with
      | error e => rw [hp] at h; exact absurd h (by simp [Except.map])
      | ok r0 =>
        rw [hp] at h
        simp only [Except.map, Except.ok.injEq] at h
        subst h
        exact readBlifPostParse_result_ok_iff cr st design p r0 hp

/-- C4 witness: the population conjunct applied to a concrete successful
run (and, on the same run, the concrete prologue outcomes). -/
theorem readBlif_entry_contract_witness :
    AbcMiniReadBlif_prologue 1 8 = .assertOutFail ∧
    (ReadResult.result
        { result := .OK, outNetwork := some 0, faults := [],
          store := [{ mkNet "M" [] with
                      design := none, _unused_spec := some "input.blif" }],
          design := { name := "", modules := [0], top_level_modules := [0] },
          designFreed := true } = .OK ↔
      ReadResult.outNetwork
        { result := .OK, outNetwork := some 0, faults := [],
          store := [{ mkNet "M" [] with
                      design := none, _unused_spec := some "input.blif" }],
          design := { name := "", modules := [0], top_level_modules := [0] },
          designFreed := true } ≠ none) :=
  ⟨readBlif_entry_contract.2.1,
   readBlif_entry_contract.2.2.2.2 (fun _ => true) [mkNet "M" []] ""
     (some { name := "", modules := [0], top_level_modules := [] }) [] _ rfl⟩

/-- C5 counterexample: on the design [M, EXDC, N, EXDC] the SECOND
module named EXDC does not remain an ordinary sibling: the scan attaches
it as `exdc_network` of N (the running root candidate after the
non-EXDC module N was seen) and removes it from the module list, which
ends as [0, 2]. -/
theorem exdc_second_module_counterexample :
    exdcStage [mkNet "M" [], mkNet "EXDC" [], mkNet "N" [], mkNet "EXDC" []]
        [0, 1, 2, 3]
      = .ok ([{ mkNet "M" [] with exdc_network := some 1 },
              { mkNet "EXDC" [] with design := none },
              { mkNet "N" [] with exdc_network := some 3 },
              { mkNet "EXDC" [] with design := none }], [0, 2]) ∧
    (3 : Nat) ∉ ([0, 2] : List Nat) :=
  ⟨rfl, by decide⟩

/-- C5 amended: scanning from index 1, EVERY module named EXDC is
detached from the module list, gets its design back-reference cleared
and is attached as `exdc_network` of the running root candidate — the
most recent non-EXDC module seen (initially module 0) — whenever that
candidate has no EXDC companion yet (the hypotheses on the
`exdc_network` fields mirror the assert inside the loop).  For modules
[M, EXDC, N] the EXDC module becomes the companion of M and the list
ends as [M, N]; for [M, EXDC, N, EXDC] the second EXDC module is also
specially treated: it becomes the companion of N and leaves the list. -/
theorem exdc_extraction_amended (M E1 N E2 : AbcNetworkImpl)
    (hE1 : E1.name = "EXDC") (hE2 : E2.name = "EXDC") (hN : ¬ N.name = "EXDC")
    (hM : M.exdc_network = none) (hNx : N.exdc_network = none) :
    exdcStage [M, E1, N] [0, 1, 2]
      = .ok ([{ M with exdc_network := some 1 }, { E1 with design := none }, N],
             [0, 2]) ∧
    exdcStage [M, E1, N, E2] [0, 1, 2, 3]
      = .ok ([{ M with exdc_network := some 1 }, { E1 with design := none },
              { N with exdc_network := some 3 }, { E2 with design := none }],
             [0, 2]) := by
  constructor <;>
    simp [exdcStage, exdcLoop, getN, setN, removeLastOcc, lastIdxOf, hE1, hE2, hN, hM, hNx]

/-- C5 amended witness: the two scenarios at concrete networks. -/
theorem exdc_extraction_amended_witness :
    exdcStage [mkNet "M" [], mkNet "EXDC" [], mkNet "N" []] [0, 1, 2]
      = .ok ([{ mkNet "M" [] with exdc_network := some 1 },
              { mkNet "EXDC" [] with design := none }, mkNet "N" []], [0, 2]) ∧
    exdcStage [mkNet "M" [], mkNet "EXDC" [], mkNet "N" [], mkNet "EXDC" []]
        [0, 1, 2, 3]
      = .ok ([{ mkNet "M" [] with exdc_network := some 1 },
              { mkNet "EXDC" [] with design := none },
              { mkNet "N" [] with exdc_network := some 3 },
              { mkNet "EXDC" [] with design := none }], [0, 2]) :=
  exdc_extraction_amended (mkNet "M" []) (mkNet "EXDC" []) (mkNet "N" [])
    (mkNet "EXDC" []) rfl rfl (by decide) rfl rfl

/-- C6 counterexample: a SINGLE-module design whose sole module
instantiates itself — the very example the claim gives — is never
cycle-checked: the singleton fast path (BlifReader.cpp line 355) runs
before the cycle check, so the import ends OK with a populated root
handle, although the hierarchy of the chosen root is cyclic (first
conjunct, by the same cycle model the multi-module path consults). -/
theorem cyclic_singleton_import_ok :
    Abc_NtkIsAcyclicHierarchy [mkNet "A" ["A"]] [0] 0 = false ∧
    readBlifPostParse (fun _ => true) [mkNet "A" ["A"]]
        { name := "", modules := [0], top_level_modules := [] } []
      = .ok { result := .OK, outNetwork := some 0, faults := [],
              store := [{ mkNet "A" ["A"] with
                          design := none, _unused_spec := some "input.blif" }],
              design := { name := "", modules := [0], top_level_modules := [0] },
              designFreed := true } :=
  ⟨rfl, rfl⟩

/-- C6 (amended): whenever the pipeline reaches the cycle check — i.e.
after EXDC extraction more than one module remains — and the check on
the chosen root reports a cycle, the import returns ERROR, the fault
naming the root network is the last message emitted, the design is not
freed (on a design whose networks all pass the structural check nothing
has been freed at all), and the out handle stays null.  A single-module
design takes the fast path instead and is never cycle-checked (see the
counterexample above). -/
theorem cyclic_hierarchy_error (checkRead : AbcNetworkImpl → Bool)
    (store : List AbcNetworkImpl) (design : AbcDesignImpl) (pendingLtl : List Nat)
    (store1 : List AbcNetworkImpl) (mods1 : List Nat) (root : Nat) (rest : List Nat)
    (hcheck : ∀ i ∈ design.modules, checkRead (getN store i) = true)
    (hmany : design.modules.length > 1)
    (hexdc : exdcStage store design.modules = .ok (store1, mods1))
    (htops : Abc_DesFindTopLevelModels store1 mods1 = root :: rest)
    (hmany1 : mods1.length > 1)
    (hcyc : Abc_NtkIsAcyclicHierarchy
        (setN store1 root { getN store1 root with design := some () }) mods1 root
      = false) :
    readBlifPostParse checkRead store design pendingLtl =
      .ok { result := .ERROR, outNetwork := none,
            faults :=
              (if (root :: rest).length > 1 then
                ["warning: the design has " ++ toString (root :: rest).length ++
                 " root-level modules -- the first one (" ++ (getN store1 root).name ++
                 ") will be used"]
               else []) ++
              ["network (" ++ (getN store1 root).name ++ ") hierarchy is not acyclic"],
            store := setN store1 root { getN store1 root with design := some () },
            design := { design with modules := mods1, top_level_modules := root :: rest },
            designFreed := false } := by
  have hc : checkStage checkRead store design.modules = ([], false) :=
    checkStage_all_pass _ _ _ hcheck
  have h0 : ¬ mods1.length = 0 := by omega
  have h1 : ¬ mods1.length = 1 := by omega
  have hname : (getN (setN store1 root { getN store1 root with design := some () }) root).name
      = (getN store1 root).name := by
    by_cases hr : root < store1.length
    · simp [getN, setN, List.getD, List.getElem?_set_self, hr]
    · simp [getN, setN, List.getD]
      rw [List.getElem?_set_self']
      simp [List.getElem?_eq_none (by omega : store1.length ≤ root)]
  simp only [readBlifPostParse, hc, if_pos hmany, hexdc, htops, if_neg h0, if_neg h1,
    hcyc, Bool.false_eq_true, if_false, List.nil_append, hname]

/-- C6 (amended) witness: the two-module design [A, B] where A
instantiates A; the chosen root is A, the cycle check fails, the import
ends ERROR with a null handle and the cycle fault naming A. -/
theorem cyclic_hierarchy_error_witness :
    readBlifPostParse (fun _ => true) [mkNet "A" ["A"], mkNet "B" []]
        { name := "", modules := [0, 1], top_level_modules := [] } []
      = .ok { result := .ERROR, outNetwork := none,
              faults :=
                ["warning: the design has 2 root-level modules -- the first one (A) will be used",
                 "network (A) hierarchy is not acyclic"],
              store := [mkNet "A" ["A"], mkNet "B" []],
              design := { name := "", modules := [0, 1], top_level_modules := [0, 1] },
              designFreed := false } := by
  have h := cyclic_hierarchy_error (fun _ => true) [mkNet "A" ["A"], mkNet "B" []]
    { name := "", modules := [0, 1], top_level_modules := [] } []
    [mkNet "A" ["A"], mkNet "B" []] [0, 1] 0 [1]
    (by intro i _; rfl) (by decide) rfl rfl (by decide) rfl
  exact h

/-- C7: the program as written never produces the detached root the
claim describes.  With assertions enabled the entry prologue already
stops every call (line 300 asserts the out POINTER is null, see C4).
In a release build, the root network the pipeline extracts at line 346
(`vec_entry_at(*design->top_level_modules, 0)`) is the ADDRESS of slot
0 of `top_level_modules`, not the network stored there: for a
one-module design the sole top-level candidate is network 0 (first
conjunct), but reading it through the source `vec_entry_at` from a vec
whose storage lies at address 4096 yields 4096 (second conjunct), which
is not the stored root (third conjunct) — so the detach, the spec stamp
and the returned handle of the singleton fast path (lines 355-358) are
all applied to a reinterpreted slot address, never to the root network.
The reference ABC code kept disabled in src/abc-mini/lib/BlifReader.cpp
reads `Vec_PtrEntry(pDesign->vTops, 0)`, the stored network, and does
exactly what the claim says, so the claim is the intent and the
`vec_entry_at` body is the slip. -/
theorem singleton_root_entry_at_address :
    Abc_DesFindTopLevelModels [mkNet "M" []] [0] = [0] ∧
    vec_entry_at { base := 4096, capacity := 8, contents := [0] } 0 = .ok 4096 ∧
    (4096 : Nat) ≠ 0 :=
  ⟨rfl, rfl, by decide⟩

/-- C10: no pending entry of the global deferred LTL list ever reaches
the root network.  The source overwrites `vGlobalLtlArray` with a fresh
empty allocation (BlifReader.cpp line 368) before the drain loop reads
it, so the pipeline result does not depend on the pending entries at all
(first conjunct), and a concrete run entering the final stage with the
pending property entry 55 leaves the root network property list empty
(second conjunct) — the claimed entry-by-entry drain onto the root
never happens. -/
theorem ltl_drain_evaluation :
    (∀ (checkRead : AbcNetworkImpl → Bool) (store : List AbcNetworkImpl)
        (design : AbcDesignImpl) (pendingLtl : List Nat),
      readBlifPostParse checkRead store design pendingLtl
        = readBlifPostParse checkRead store design []) ∧
    readBlifPostParse (fun _ => true) [mkNet "M" []]
        { name := "", modules := [0], top_level_modules := [] } [55]
      = .ok { result := .OK, outNetwork := some 0, faults := [],
              store := [{ mkNet "M" [] with
                          design := none, _unused_spec := some "input.blif" }],
              design := { name := "", modules := [0], top_level_modules := [0] },
              designFreed := true } :=
  ⟨fun _ _ _ _ => rfl, rfl⟩

end AbcMini
